import Mathlib

/-!
Verification development for the MobileWallet repository: a shallow Lean
embedding of the identity/credential core (utils/crypto.js,
services/secureStorage.js, services/vcService.js, services/didManager.js and
the issue/present screens), together with theorems settling the frozen
claims about it.
-/

namespace MobileWallet

/-! JS string helpers: ASCII models of String.prototype.toLowerCase and
String.prototype.trim (the strings handled here — hex addresses, DIDs,
user-entered challenges — are ASCII). -/

/-- Model of JS toLowerCase on one ASCII character. -/
def jsCharToLower (c : Char) : Char :=
  if 65 ≤ c.toNat ∧ c.toNat ≤ 90 then Char.ofNat (c.toNat + 32) else c

/-- Model of JS String.prototype.toLowerCase. -/
def jsToLower (s : String) : String := String.mk (s.data.map jsCharToLower)

/-- Whitespace characters removed by JS String.prototype.trim. -/
def isJsWhitespace (c : Char) : Bool := c == ' ' || c == '\t' || c == '\n' || c == '\r'

/-- Model of JS String.prototype.trim. -/
def jsTrim (s : String) : String :=
  String.mk (((s.data.dropWhile isJsWhitespace).reverse.dropWhile isJsWhitespace).reverse)

/-- JS truthiness of a `string or undefined` value: undefined and the empty
string are falsy, every other string is truthy. -/
def optTruthy : Option String → Bool
  | none => false
  | some s => !(s == "")

/-! Model of the ethers primitives consumed by utils/crypto.js. The
elliptic-curve computations (new ethers.Wallet(...).address, signingKey
public key, signMessage, verifyMessage recovery) are kept abstract as an
oracle structure; the repository code is embedded on top of it. -/

/-- Oracle for the ethers key/signature primitives used by utils/crypto.js:
address and public key derivation from a private key hex string, EIP-191
message signing, and address recovery from a message/signature pair
(ethers.verifyMessage; `none` models a recovery exception). -/
structure EthScheme where
  addressOf : String → String
  pubKeyOf : String → String
  signMessage : String → String → String
  recoverMessage : String → String → Option String

/-- Correctness of the abstract ethers signature primitives: recovering from
a freshly produced signature of a message yields the signer's address. This
is the secp256k1 round-trip fact the repository relies on. -/
def SchemeCorrect (s : EthScheme) : Prop :=
  ∀ k m, s.recoverMessage m (s.signMessage k m) = some (s.addressOf k)

/-- Argument passed to signData/verifySignature: either a JS string or an
object, the latter carried as its JSON.stringify serialization. -/
inductive JsData where
  | str (s : String)
  | obj (json : String)
deriving DecidableEq

/-- The `typeof data === 'string' ? data : JSON.stringify(data)` step shared
by signData and verifySignature in utils/crypto.js. -/
def dataToString : JsData → String
  | .str s => s
  | .obj j => j

/-- Embedding of signData from utils/crypto.js: serialize the data and sign
the UTF-8 bytes with ethers wallet.signMessage. -/
def signData (s : EthScheme) (privateKey : String) (data : JsData) : String :=
  s.signMessage privateKey (dataToString data)

/-- Embedding of verifySignature from utils/crypto.js: recover the address
with ethers.verifyMessage and compare to the expected address
case-insensitively; any recovery exception yields false. -/
def verifySignature (s : EthScheme) (data : JsData) (signature address : String) : Bool :=
  match s.recoverMessage (dataToString data) signature with
  | some recoveredAddress => jsToLower recoveredAddress == jsToLower address
  | none => false

/-- Hex digit character, lower case, as produced by Buffer.toString('hex'). -/
def hexDigitChar (n : Nat) : Char :=
  if n < 10 then Char.ofNat (48 + n) else Char.ofNat (87 + n)

/-- One byte rendered as two lowercase hex characters. -/
def byteToHex (b : Nat) : String :=
  String.mk [hexDigitChar (b / 16 % 16), hexDigitChar (b % 16)]

/-- Model of Buffer.from(bytes).toString('hex'). -/
def bytesToHex (bs : List Nat) : String := String.join (bs.map byteToHex)

/-- Result record of generateKeyPair in utils/crypto.js. -/
structure KeyPair where
  privateKey : String
  publicKey : String
  address : String
  did : String
deriving DecidableEq

/-- Embedding of generateKeyPair from utils/crypto.js: the 32 random bytes
become the 0x-prefixed private key hex, the wallet's address and public key
are derived from it, and the did field is the fixed did:ethr:VoltusWave:
prefix followed by the lower-cased address. -/
def generateKeyPair (s : EthScheme) (entropy : List Nat) : KeyPair :=
  let privateKeyHex := "0x" ++ bytesToHex entropy
  let address := s.addressOf privateKeyHex
  { privateKey := privateKeyHex
    publicKey := s.pubKeyOf privateKeyHex
    address := address
    did := "did:ethr:VoltusWave:" ++ jsToLower address }

/-- Embedding of createDID from utils/crypto.js. -/
def createDID (address : String) : String :=
  "did:ethr:VoltusWave:" ++ jsToLower address

/-! Model of the did-jwt / did-jwt-vc layer consumed by
services/vcService.js. did-jwt's ES256KSigner takes the raw key bytes and an
optional `recoverable` flag that defaults to false; with the flag false it
produces plain ES256K signatures (r and s only), and only with the flag true
does it produce ES256K-R signatures carrying the extra recovery identifier
from which the signer's public key can be reconstructed. -/

/-- A did-jwt signer: the key bytes it holds and whether it was created in
recoverable (ES256K-R) mode. -/
structure JwtSigner where
  key : String
  recoverable : Bool
deriving DecidableEq

/-- Model of did-jwt's ES256KSigner called with only the key bytes, as in
vcService.js: the recoverable flag takes its default value false. -/
def ES256KSigner (keyBytes : String) : JwtSigner :=
  { key := keyBytes, recoverable := false }

/-- Issuer/holder record handed to the did-jwt-vc creation functions. -/
structure JwtIssuer where
  did : String
  signer : JwtSigner
  alg : String
deriving DecidableEq

/-- JWT protected header. -/
structure JwtHeader where
  alg : String
  typ : String
deriving DecidableEq

/-- The signature part of a produced JWT: which key bytes signed it and
whether it carries the ES256K-R recovery identifier. A verifier can
reconstruct the signer's public key from signature and message alone exactly
when the recovery identifier is present. -/
structure JwtSignature where
  key : String
  recoverable : Bool
deriving DecidableEq

/-- The credential payload built by issueCredentialLocally. The JSON keys
`vc.@context` and `vc.type` are rendered as the fields atContext and vcType. -/
structure VCPayload where
  sub : String
  nbf : Nat
  atContext : List String
  vcType : List String
  credentialSubject : List (String × String)
deriving DecidableEq

/-- A signed credential JWT: header, payload, the issuer placed in the
payload's iss claim by did-jwt, and the signature. -/
structure VCJwt where
  header : JwtHeader
  payload : VCPayload
  iss : String
  signature : JwtSignature
deriving DecidableEq

/-- Model of did-jwt-vc's createVerifiableCredentialJwt: the header algorithm
is the issuer's alg, the issuer did becomes the iss claim, and the token is
signed by the issuer's signer. -/
def createVerifiableCredentialJwt (vcPayload : VCPayload) (issuer : JwtIssuer) : VCJwt :=
  { header := { alg := issuer.alg, typ := "JWT" }
    payload := vcPayload
    iss := issuer.did
    signature := { key := issuer.signer.key, recoverable := issuer.signer.recoverable } }

/-- The presentation payload built by createPresentationLocally. The JSON
keys `vp.@context` and `vp.type` are rendered as atContext and vpType; nonce
is the optional top-level nonce property. -/
structure VPPayload where
  atContext : List String
  vpType : List String
  verifiableCredential : List VCJwt
  nonce : Option String
deriving DecidableEq

/-- A signed presentation JWT. -/
structure VPJwt where
  header : JwtHeader
  payload : VPPayload
  iss : String
  signature : JwtSignature
deriving DecidableEq

/-- Model of did-jwt-vc's createVerifiablePresentationJwt, mirroring
createVerifiableCredentialJwt for the holder. -/
def createVerifiablePresentationJwt (vpPayload : VPPayload) (holder : JwtIssuer) : VPJwt :=
  { header := { alg := holder.alg, typ := "JWT" }
    payload := vpPayload
    iss := holder.did
    signature := { key := holder.signer.key, recoverable := holder.signer.recoverable } }

/-! Wallet storage model. services/secureStorage.js persists the private
key, public key, address, DID and the credential list. For the service and
UI flows the state is carried at the parsed level; the raw key/value layer
with its JSON round-trip is modelled separately below for getCredentials. -/

/-- A credential record as built by issueCredentialLocally and stored by
secureStorage.addCredential. -/
structure Credential where
  id : String
  issuer : String
  subject : String
  data : List (String × String)
  jwt : VCJwt
  addedAt : String
deriving DecidableEq

/-- Parsed view of the wallet's secure storage: the five values the
identity flows read and write. `none` models an absent key. -/
structure WalletState where
  did : Option String
  privateKey : Option String
  publicKey : Option String
  address : Option String
  credentials : List Credential
deriving DecidableEq

/-- Embedding of secureStorage.saveWalletKeys at the parsed level. -/
def saveWalletKeys (st : WalletState) (privateKey publicKey address did : String) : WalletState :=
  { st with privateKey := some privateKey
            publicKey := some publicKey
            address := some address
            did := some did }

/-- Embedding of secureStorage.addCredential at the parsed level: the stored
copy of the credential gets a fresh Date.now id and a fresh ISO timestamp
(addMs, addIso) and is appended to the stored list. -/
def addCredential (st : WalletState) (credential : Credential) (addMs : Nat) (addIso : String) :
    WalletState :=
  { st with credentials :=
      st.credentials ++ [{ credential with id := toString addMs, addedAt := addIso }] }

/-- Raw secure-store cell: SecureStore.getItemAsync can throw (err), or
return a value or null (val). -/
inductive StoreCell where
  | err (e : String)
  | val (v : Option String)

/-- Embedding of secureStorage.getSecure over the raw store: exceptions from
the underlying store are caught and turned into null. -/
def getSecure (store : String → StoreCell) (key : String) : Option String :=
  match store key with
  | .err _ => none
  | .val v => v

/-- The storage key under which the credential list is persisted. -/
def credentialsStorageKey : String := "ssi_credentials"

/-- Embedding of secureStorage.getCredentials over the raw store. The JSON
parser is abstract: `parse` models JSON.parse on the stored string, with
`.error` modelling a parse exception. The try/catch of the source is the
outer match: any exception from the body becomes the empty list. -/
def getCredentials {α : Type} (store : String → StoreCell)
    (parse : String → Except String (List α)) : Except String (List α) :=
  let body : Except String (List α) :=
    match getSecure store credentialsStorageKey with
    | some credentialsJson =>
        if credentialsJson == "" then .ok [] else parse credentialsJson
    | none => .ok []
  match body with
  | .ok l => .ok l
  | .error _ => .ok []

/-! services/vcService.js. Each Date.now()/new Date() reading taken during
one call is passed in explicitly: nowMs and nowIso for the issuance call
itself, addMs and addIso for the clock readings inside addCredential. -/

/-- Embedding of issueCredentialLocally from services/vcService.js: load did
and private key from storage (JS-truthy check), build the VC payload, sign
it with a did-jwt ES256K signer (non-recoverable mode, alg "ES256K"), build
the credential record, store it via addCredential, and return it together
with the updated storage state. -/
def issueCredentialLocally (st : WalletState) (nowMs : Nat) (nowIso : String)
    (addMs : Nat) (addIso : String) (credentialData : List (String × String)) :
    Except String (Credential × WalletState) :=
  match st.did, st.privateKey with
  | some did, some privateKey =>
    if did == "" || privateKey == "" then .error "No wallet found"
    else
      let keyBytes := privateKey.drop 2
      let signer := ES256KSigner keyBytes
      let vcPayload : VCPayload :=
        { sub := did
          nbf := nowMs / 1000
          atContext := ["https://www.w3.org/2018/credentials/v1"]
          vcType := ["VerifiableCredential"]
          credentialSubject := credentialData }
      let issuer : JwtIssuer := { did := did, signer := signer, alg := "ES256K" }
      let jwt := createVerifiableCredentialJwt vcPayload issuer
      let credential : Credential :=
        { id := toString nowMs
          issuer := did
          subject := did
          data := credentialData
          jwt := jwt
          addedAt := nowIso }
      .ok (credential, addCredential st credential addMs addIso)
  | _, _ => .error "No wallet found"

/-- Embedding of createPresentationLocally from services/vcService.js: load
did and private key, build the VP payload listing the input credentials'
jwt tokens in order, attach the nonce only when the challenge argument is
JS-truthy, and sign with a did-jwt ES256K signer (non-recoverable mode). -/
def createPresentationLocally (st : WalletState) (credentials : List Credential)
    (challenge : Option String) : Except String VPJwt :=
  match st.did, st.privateKey with
  | some did, some privateKey =>
    if did == "" || privateKey == "" then .error "No wallet found"
    else
      let keyBytes := privateKey.drop 2
      let signer := ES256KSigner keyBytes
      let vpPayload : VPPayload :=
        { atContext := ["https://www.w3.org/2018/credentials/v1"]
          vpType := ["VerifiablePresentation"]
          verifiableCredential := credentials.map (fun c => c.jwt)
          nonce := none }
      let vpPayload := if optTruthy challenge then { vpPayload with nonce := challenge } else vpPayload
      let holder : JwtIssuer := { did := did, signer := signer, alg := "ES256K" }
      .ok (createVerifiablePresentationJwt vpPayload holder)
  | _, _ => .error "No wallet found"

/-! services/didManager.js (the variant whose registration step builds and
signs an ownership proof). The backend POST is abstract: `post` models
apiClient.post('/register-on-chain', body), with `.error` modelling a
network or server failure. -/

/-- Request body sent to the /register-on-chain endpoint. -/
structure RegisterRequest where
  did : String
  publicKey : String
  address : String
  signature : String
  message : String
deriving DecidableEq

/-- Backend response data on successful registration. -/
structure TxReceipt where
  txHash : String
  blockNumber : Nat
deriving DecidableEq

/-- Result record returned by registerDIDOnBlockchain on success. -/
structure RegResult where
  success : Bool
  txHash : String
  blockNumber : Nat
deriving DecidableEq

/-- Embedding of registerDIDOnBlockchain from services/didManager.js: build
the ownership-proof message from the fixed prefix and the did, sign it with
signData, post the request, and rethrow any backend failure unchanged. -/
def registerDIDOnBlockchain (s : EthScheme)
    (post : RegisterRequest → Except String TxReceipt)
    (did publicKey address privateKey : String) : Except String RegResult :=
  let message := "Register DID: " ++ did
  let signature := signData s privateKey (JsData.str message)
  match post { did := did, publicKey := publicKey, address := address
               signature := signature, message := message } with
  | .ok r => .ok { success := true, txHash := r.txHash, blockNumber := r.blockNumber }
  | .error e => .error e

/-- Result record returned by createLocalDID. -/
structure CreateDIDResult where
  did : String
  address : String
  publicKey : String
deriving DecidableEq

/-- Embedding of createLocalDID from services/didManager.js: generate a key
pair, save the keys, attempt blockchain registration inside a try/catch that
swallows any failure (only logging a warning), and return the public wallet
fields together with the updated storage state. -/
def createLocalDID (s : EthScheme) (post : RegisterRequest → Except String TxReceipt)
    (entropy : List Nat) (st : WalletState) :
    Except String (CreateDIDResult × WalletState) :=
  let kp := generateKeyPair s entropy
  let st1 := saveWalletKeys st kp.privateKey kp.publicKey kp.address kp.did
  let _ := registerDIDOnBlockchain s post kp.did kp.publicKey kp.address kp.privateKey
  .ok ({ did := kp.did, address := kp.address, publicKey := kp.publicKey }, st1)

/-! The issue and presentation screens (app/issue.js and the presentations
screen), which are the only call sites enforcing the non-empty-claims and
non-empty-credential-set policies. -/

/-- JS object property assignment claims[k] = v on an insertion-ordered
string map: overwrite in place when the key exists, append otherwise. -/
def objectSet (m : List (String × String)) (k v : String) : List (String × String) :=
  if m.any (fun p => p.1 == k) then m.map (fun p => if p.1 == k then (k, v) else p)
  else m ++ [(k, v)]

/-- Outcome of the issue screen's issueCredential handler: a validation
alert, a successful issuance, or a propagated service error shown as an
alert. -/
inductive IssueOutcome where
  | alertError (msg : String)
  | success (c : Credential) (st' : WalletState)
  | failure (e : String)
deriving DecidableEq

/-- Embedding of the issueCredential handler in app/issue.js: reject when
the wallet info has no truthy did, reject when the entered claims list is
empty, otherwise build the claims object from the rows (plus the optional
credentialType key when truthy) and call the service. -/
def issueCredential (st : WalletState) (walletDid : Option String)
    (additionalClaims : List (String × String)) (credentialType : String)
    (nowMs : Nat) (nowIso : String) (addMs : Nat) (addIso : String) : IssueOutcome :=
  if !(optTruthy walletDid) then .alertError "No DID found. Create your identity first."
  else if additionalClaims.length == 0 then
    .alertError "Add at least one claim to the credential."
  else
    let claims := additionalClaims.foldl (fun m p => objectSet m p.1 p.2) []
    let claims := if credentialType == "" then claims
                  else objectSet claims "credentialType" credentialType
    match issueCredentialLocally st nowMs nowIso addMs addIso claims with
    | .ok (c, st') => .success c st'
    | .error e => .failure e

/-- Outcome of the presentations screen's createPresentation handler. -/
inductive PresentOutcome where
  | alertError (msg : String)
  | success (vpJwt : VPJwt)
  | failure (e : String)
deriving DecidableEq

/-- Embedding of the createPresentation handler in the presentations screen:
reject an empty selection, reject a wallet without a truthy did, otherwise
filter the stored credentials to the selected ids, turn an all-whitespace
challenge field into undefined, and call the service. -/
def createPresentation (st : WalletState) (walletDid : Option String)
    (selectedCredentials : List String) (challenge : String) : PresentOutcome :=
  if selectedCredentials.length == 0 then .alertError "Select at least one credential"
  else if !(optTruthy walletDid) then .alertError "No DID found"
  else
    let selectedCreds := st.credentials.filter (fun c => selectedCredentials.contains c.id)
    let challengeToUse := if jsTrim challenge == "" then none else some (jsTrim challenge)
    match createPresentationLocally st selectedCreds challengeToUse with
    | .ok r => .success r
    | .error e => .failure e

/-! Concrete fixtures used by witnesses and counterexamples. -/

/-- A concrete instantiation of the ethers oracle in which the address is
the private key itself and a signature is the signing key; it satisfies
SchemeCorrect and lets the embedded code run on concrete inputs. -/
def toyScheme : EthScheme :=
  { addressOf := fun k => k
    pubKeyOf := fun k => k
    signMessage := fun k _ => k
    recoverMessage := fun _ signature => some signature }

/-- A concrete wallet storage state holding a DID and a private key. -/
def walletState0 : WalletState :=
  { did := some "did:ethr:VoltusWave:0xabc"
    privateKey := some "0x01"
    publicKey := some "0xpub"
    address := some "0xABC"
    credentials := [] }

/-- A concrete stored credential record. -/
def credential0 : Credential :=
  { id := "1"
    issuer := "did:ethr:VoltusWave:0xabc"
    subject := "did:ethr:VoltusWave:0xabc"
    data := [("role", "admin")]
    jwt := { header := { alg := "ES256K", typ := "JWT" }
             payload := { sub := "did:ethr:VoltusWave:0xabc", nbf := 1
                          atContext := ["https://www.w3.org/2018/credentials/v1"]
                          vcType := ["VerifiableCredential"]
                          credentialSubject := [("role", "admin")] }
             iss := "did:ethr:VoltusWave:0xabc"
             signature := { key := "01", recoverable := false } }
    addedAt := "t" }

/-- A backend POST that always succeeds. -/
def postOk0 : RegisterRequest → Except String TxReceipt :=
  fun _ => .ok { txHash := "0xtx", blockNumber := 1 }

/-- A backend POST that always fails with a network error. -/
def postFail0 : RegisterRequest → Except String TxReceipt :=
  fun _ => .error "Network Error"

/-- Header algorithm and recovery flag of the credential token produced at a
concrete wallet state and concrete claims. -/
def issuedTokenMode0 : Except String (String × Bool) :=
  (issueCredentialLocally walletState0 1000 "t1" 2000 "t2" [("role", "admin")]).map
    (fun p => (p.1.jwt.header.alg, p.1.jwt.signature.recoverable))

/-- Header algorithm and recovery flag of the presentation token produced at
a concrete wallet state. -/
def presentedTokenMode0 : Except String (String × Bool) :=
  (createPresentationLocally walletState0 [credential0] (some "c1")).map
    (fun v => (v.header.alg, v.signature.recoverable))

/-- Outcome of a service-level issuance with a zero-entry claims map at a
concrete wallet state: the credentialSubject of the returned token and how
many credentials the updated state stores. -/
def emptyClaimsIssued0 : Except String (List (String × String) × Nat) :=
  (issueCredentialLocally walletState0 1000 "t1" 2000 "t2" []).map
    (fun p => (p.1.jwt.payload.credentialSubject, p.2.credentials.length))

/-- Nonce field of the presentation payload produced when the empty-string
challenge is supplied at creation. -/
def emptyChallengeNonce0 : Except String (Option String) :=
  (createPresentationLocally walletState0 [credential0] (some "")).map
    (fun v => v.payload.nonce)

/-- Outcome of a service-level presentation over zero credentials at a
concrete wallet state: the verifiableCredential array of the payload. -/
def emptyPresentation0 : Except String (List VCJwt) :=
  (createPresentationLocally walletState0 [] none).map
    (fun v => v.payload.verifiableCredential)

/-- A concrete raw store whose credentials entry holds parseable JSON. -/
def storeW : String → StoreCell := fun _ => .val (some "[]")

/-- A concrete JSON parse oracle for the raw-store witness. -/
def parseW : String → Except String (List Nat) := fun _ => .ok []

/-- C2: DID derivation is a pure deterministic function: createDID maps an
address to the fixed did:ethr:VoltusWave: prefix followed by the lower-cased
address, calling it twice on the same address yields identical strings, and
the did field returned by generateKeyPair equals createDID of the returned
address. -/
theorem createDID_deterministic_and_lowercases :
    (∀ address : String, createDID address = "did:ethr:VoltusWave:" ++ jsToLower address)
    ∧ (∀ address : String, createDID address = createDID address)
    ∧ (∀ (s : EthScheme) (entropy : List Nat),
        (generateKeyPair s entropy).did = createDID (generateKeyPair s entropy).address) :=
  ⟨fun _ => rfl, fun _ => rfl, fun _ _ => rfl⟩

/-- C7: for every ethers oracle satisfying the secp256k1 recovery round-trip
property, every private key and every message (string or JSON-serialized
object), verifySignature accepts the signature produced by signData against
the address derived from that private key. -/
theorem signData_verifySignature_roundtrip (s : EthScheme) (h : SchemeCorrect s)
    (privateKey : String) (data : JsData) :
    verifySignature s data (signData s privateKey data) (s.addressOf privateKey) = true := by
  unfold verifySignature signData
  rw [h]
  simp

/-- Witness for C7 at a concrete correct scheme, key and message. -/
theorem signData_verifySignature_roundtrip_witness :
    verifySignature toyScheme (JsData.str "hello")
      (signData toyScheme "0xk1" (JsData.str "hello")) (toyScheme.addressOf "0xk1") = true :=
  signData_verifySignature_roundtrip toyScheme (fun _ _ => rfl) "0xk1" (JsData.str "hello")

/-- C9: registerDIDOnBlockchain constructs exactly the message
"Register DID: " followed by the did, signs that message with the holder's
private key via signData, and hands the message/signature pair to the
registrar POST; its result is the POST result with any failure rethrown. -/
theorem registerDIDOnBlockchain_ownership_proof (s : EthScheme)
    (post : RegisterRequest → Except String TxReceipt)
    (did publicKey address privateKey : String) :
    registerDIDOnBlockchain s post did publicKey address privateKey =
      Except.map (fun r => { success := true, txHash := r.txHash, blockNumber := r.blockNumber })
        (post { did := did, publicKey := publicKey, address := address
                signature := signData s privateKey (JsData.str ("Register DID: " ++ did))
                message := "Register DID: " ++ did }) := by
  rcases hp : post ⟨did, publicKey, address,
      signData s privateKey (JsData.str ("Register DID: " ++ did)),
      "Register DID: " ++ did⟩ with e | r <;>
    simp [registerDIDOnBlockchain, hp, Except.map]

/-- C8 counterexample: at a concrete scheme, entropy and state, createLocalDID
returns the very same value under an always-failing registrar as under an
always-succeeding one, so the registrar error is not surfaced to the caller
as an outcome distinguishable from local success. -/
theorem createLocalDID_registrar_error_not_surfaced :
    createLocalDID toyScheme postFail0 [1] walletState0 =
      createLocalDID toyScheme postOk0 [1] walletState0 := rfl

/-- C8 amended: createLocalDID succeeds locally regardless of the registrar
outcome, returning the did, address and public key of the generated pair with
the keys saved to storage; the registration result is discarded (only
logged), so the returned value carries no trace of a registrar failure. -/
theorem createLocalDID_local_success_regardless_of_registrar (s : EthScheme)
    (post : RegisterRequest → Except String TxReceipt)
    (entropy : List Nat) (st : WalletState) :
    createLocalDID s post entropy st =
      .ok ({ did := (generateKeyPair s entropy).did
             address := (generateKeyPair s entropy).address
             publicKey := (generateKeyPair s entropy).publicKey },
           saveWalletKeys st (generateKeyPair s entropy).privateKey
             (generateKeyPair s entropy).publicKey (generateKeyPair s entropy).address
             (generateKeyPair s entropy).did) := rfl

/-- C4: with a wallet present, issueCredentialLocally builds a signed payload
whose sub field is the subject DID, whose nbf is the issuance time in epoch
seconds, whose vc context contains the credentials/v1 context, whose vc type
contains "VerifiableCredential", and whose credentialSubject is the claims
map unchanged. -/
theorem issueCredentialLocally_payload_fields (st : WalletState)
    (nowMs : Nat) (nowIso : String) (addMs : Nat) (addIso : String)
    (credentialData : List (String × String)) (did privateKey : String)
    (hd : st.did = some did) (hp : st.privateKey = some privateKey)
    (hd0 : did ≠ "") (hp0 : privateKey ≠ "") (hne : credentialData ≠ []) :
    ∃ c st', issueCredentialLocally st nowMs nowIso addMs addIso credentialData = .ok (c, st')
      ∧ c.jwt.payload.sub = did
      ∧ c.jwt.payload.nbf = nowMs / 1000
      ∧ "https://www.w3.org/2018/credentials/v1" ∈ c.jwt.payload.atContext
      ∧ "VerifiableCredential" ∈ c.jwt.payload.vcType
      ∧ c.jwt.payload.credentialSubject = credentialData := by
  have hcond : (did == "" || privateKey == "") = false := by
    simp [hd0, hp0]
  simp only [issueCredentialLocally, hd, hp, hcond, Bool.false_eq_true, if_false]
  exact ⟨_, _, rfl, rfl, rfl, by simp [createVerifiableCredentialJwt],
    by simp [createVerifiableCredentialJwt], rfl⟩

/-- Witness for C4 at a concrete wallet state and a one-entry claims map. -/
theorem issueCredentialLocally_payload_fields_witness :
    ∃ c st', issueCredentialLocally walletState0 1000 "t1" 2000 "t2" [("role", "admin")] =
        .ok (c, st')
      ∧ c.jwt.payload.sub = "did:ethr:VoltusWave:0xabc"
      ∧ c.jwt.payload.nbf = 1000 / 1000
      ∧ "https://www.w3.org/2018/credentials/v1" ∈ c.jwt.payload.atContext
      ∧ "VerifiableCredential" ∈ c.jwt.payload.vcType
      ∧ c.jwt.payload.credentialSubject = [("role", "admin")] :=
  issueCredentialLocally_payload_fields walletState0 1000 "t1" 2000 "t2" [("role", "admin")]
    "did:ethr:VoltusWave:0xabc" "0x01" rfl rfl (by decide) (by decide) (by decide)

/-- C1 counterexample: both kinds of token produced at a concrete wallet
state carry header algorithm ES256K and a signature without the ES256K-R
recovery identifier, so the signer's public key cannot be reconstructed from
signature and message alone and the claim fails at this input. -/
theorem tokens_not_recoverable_counterexample :
    issuedTokenMode0 = .ok ("ES256K", false) ∧ presentedTokenMode0 = .ok ("ES256K", false) :=
  ⟨rfl, rfl⟩

/-- C1 amended: every credential token from issueCredentialLocally and every
presentation token from createPresentationLocally is signed in the
non-recoverable ES256K mode: the header algorithm is "ES256K" (not
"ES256K-R") and the signature carries no recovery metadata, so the verifier
needs the separately stored public key. -/
theorem tokens_signed_nonrecoverable (st : WalletState)
    (nowMs : Nat) (nowIso : String) (addMs : Nat) (addIso : String)
    (credentialData : List (String × String))
    (credentials : List Credential) (challenge : Option String) (did privateKey : String)
    (hd : st.did = some did) (hp : st.privateKey = some privateKey)
    (hd0 : did ≠ "") (hp0 : privateKey ≠ "") :
    (∃ c st', issueCredentialLocally st nowMs nowIso addMs addIso credentialData = .ok (c, st')
       ∧ c.jwt.header.alg = "ES256K" ∧ c.jwt.signature.recoverable = false)
    ∧ (∃ v, createPresentationLocally st credentials challenge = .ok v
       ∧ v.header.alg = "ES256K" ∧ v.signature.recoverable = false) := by
  have hcond : (did == "" || privateKey == "") = false := by
    simp [hd0, hp0]
  constructor
  · simp only [issueCredentialLocally, hd, hp, hcond, Bool.false_eq_true, if_false]
    exact ⟨_, _, rfl, rfl, rfl⟩
  · simp only [createPresentationLocally, hd, hp, hcond, Bool.false_eq_true, if_false]
    exact ⟨_, rfl, rfl, rfl⟩

/-- Witness for the C1 amended theorem at a concrete wallet state. -/
theorem tokens_signed_nonrecoverable_witness :
    (∃ c st', issueCredentialLocally walletState0 1000 "t1" 2000 "t2" [("role", "admin")] =
        .ok (c, st')
       ∧ c.jwt.header.alg = "ES256K" ∧ c.jwt.signature.recoverable = false)
    ∧ (∃ v, createPresentationLocally walletState0 [credential0] (some "c1") = .ok v
       ∧ v.header.alg = "ES256K" ∧ v.signature.recoverable = false) :=
  tokens_signed_nonrecoverable walletState0 1000 "t1" 2000 "t2" [("role", "admin")]
    [credential0] (some "c1") "did:ethr:VoltusWave:0xabc" "0x01"
    rfl rfl (by decide) (by decide)

/-- C3 counterexample: with a wallet present, the service function
issueCredentialLocally accepts a zero-entry claims map: it succeeds, returns
a credential whose credentialSubject is empty, and stores it, so the claim
fails at this input. -/
theorem empty_claims_issuance_succeeds_counterexample :
    emptyClaimsIssued0 = .ok ([], 1) := rfl

/-- C3 amended: the empty-claims policy lives only in the issue screen,
which rejects an empty claims-row list with the alert message and issues
nothing; issueCredentialLocally itself performs no empty-claims check and,
given a zero-entry claims map, returns and stores a credential with an empty
credentialSubject. -/
theorem empty_claims_rejected_only_in_ui (st : WalletState) (walletDid : Option String)
    (credentialType : String) (nowMs : Nat) (nowIso : String) (addMs : Nat) (addIso : String)
    (hW : optTruthy walletDid = true) (did privateKey : String)
    (hd : st.did = some did) (hp : st.privateKey = some privateKey)
    (hd0 : did ≠ "") (hp0 : privateKey ≠ "") :
    issueCredential st walletDid [] credentialType nowMs nowIso addMs addIso =
      .alertError "Add at least one claim to the credential."
    ∧ ∃ c st', issueCredentialLocally st nowMs nowIso addMs addIso [] = .ok (c, st')
        ∧ c.jwt.payload.credentialSubject = []
        ∧ st'.credentials.length = st.credentials.length + 1 := by
  have hcond : (did == "" || privateKey == "") = false := by
    simp [hd0, hp0]
  refine ⟨?_, ?_⟩
  · simp [issueCredential, hW]
  · simp only [issueCredentialLocally, hd, hp, hcond, Bool.false_eq_true, if_false]
    exact ⟨_, _, rfl, rfl, by simp [addCredential]⟩

/-- Witness for the C3 amended theorem at a concrete wallet state. -/
theorem empty_claims_rejected_only_in_ui_witness :
    issueCredential walletState0 (some "did:ethr:VoltusWave:0xabc") [] "University Degree"
        1000 "t1" 2000 "t2" =
      .alertError "Add at least one claim to the credential."
    ∧ ∃ c st', issueCredentialLocally walletState0 1000 "t1" 2000 "t2" [] = .ok (c, st')
        ∧ c.jwt.payload.credentialSubject = []
        ∧ st'.credentials.length = walletState0.credentials.length + 1 :=
  empty_claims_rejected_only_in_ui walletState0 (some "did:ethr:VoltusWave:0xabc")
    "University Degree" 1000 "t1" 2000 "t2" (by decide) "did:ethr:VoltusWave:0xabc" "0x01"
    rfl rfl (by decide) (by decide)

/-- C5 counterexample: supplying the empty-string challenge at creation
produces a payload with no nonce field even though a challenge was supplied,
so the if-and-only-if of the claim fails at this input. -/
theorem empty_challenge_drops_nonce_counterexample :
    emptyChallengeNonce0 = .ok none := rfl

/-- C5 amended: with a wallet present, createPresentationLocally builds a
payload whose verifiableCredential array lists exactly the input
credentials' tokens in input order, and whose nonce equals the challenge
exactly when the challenge is JS-truthy (supplied and non-empty); an
empty-string challenge is treated as absent. -/
theorem presentation_payload_order_and_truthy_nonce (st : WalletState)
    (credentials : List Credential) (challenge : Option String) (did privateKey : String)
    (hd : st.did = some did) (hp : st.privateKey = some privateKey)
    (hd0 : did ≠ "") (hp0 : privateKey ≠ "") (hne : credentials ≠ []) :
    ∃ v, createPresentationLocally st credentials challenge = .ok v
      ∧ v.payload.verifiableCredential = credentials.map (fun c => c.jwt)
      ∧ v.payload.nonce = (if optTruthy challenge then challenge else none) := by
  have hcond : (did == "" || privateKey == "") = false := by
    simp [hd0, hp0]
  simp only [createPresentationLocally, hd, hp, hcond, Bool.false_eq_true, if_false]
  refine ⟨_, rfl, ?_, ?_⟩
  · cases hoc : optTruthy challenge <;> simp [hoc, createVerifiablePresentationJwt]
  · cases hoc : optTruthy challenge <;> simp [hoc, createVerifiablePresentationJwt]

/-- Witness for the C5 amended theorem at a concrete wallet state, one
credential and a non-empty challenge. -/
theorem presentation_payload_order_and_truthy_nonce_witness :
    ∃ v, createPresentationLocally walletState0 [credential0] (some "c1") = .ok v
      ∧ v.payload.verifiableCredential = [credential0].map (fun c => c.jwt)
      ∧ v.payload.nonce = (if optTruthy (some "c1") then some "c1" else none) :=
  presentation_payload_order_and_truthy_nonce walletState0 [credential0] (some "c1")
    "did:ethr:VoltusWave:0xabc" "0x01" rfl rfl (by decide) (by decide) (by decide)

/-- C6 counterexample: with a wallet present, the service function
createPresentationLocally called with zero credentials succeeds and returns
a presentation whose verifiableCredential array is empty, so the claim fails
at this input. -/
theorem empty_credential_set_presentation_succeeds_counterexample :
    emptyPresentation0 = .ok [] := rfl

/-- C6 amended: the empty-credential-set policy lives only in the
presentations screen, which rejects an empty selection with the alert
message and builds nothing; createPresentationLocally itself performs no
emptiness check and, given zero credentials, returns a signed presentation
with an empty verifiableCredential array. -/
theorem empty_credential_set_rejected_only_in_ui (st : WalletState)
    (walletDid : Option String) (challengeField : String) (challenge : Option String)
    (did privateKey : String) (hd : st.did = some did) (hp : st.privateKey = some privateKey)
    (hd0 : did ≠ "") (hp0 : privateKey ≠ "") :
    createPresentation st walletDid [] challengeField =
      .alertError "Select at least one credential"
    ∧ ∃ v, createPresentationLocally st [] challenge = .ok v
        ∧ v.payload.verifiableCredential = [] := by
  have hcond : (did == "" || privateKey == "") = false := by
    simp [hd0, hp0]
  refine ⟨rfl, ?_⟩
  simp only [createPresentationLocally, hd, hp, hcond, Bool.false_eq_true, if_false]
  refine ⟨_, rfl, ?_⟩
  cases hoc : optTruthy challenge <;> simp [hoc, createVerifiablePresentationJwt]

/-- Witness for the C6 amended theorem at a concrete wallet state. -/
theorem empty_credential_set_rejected_only_in_ui_witness :
    createPresentation walletState0 (some "did:ethr:VoltusWave:0xabc") [] "" =
      .alertError "Select at least one credential"
    ∧ ∃ v, createPresentationLocally walletState0 [] none = .ok v
        ∧ v.payload.verifiableCredential = [] :=
  empty_credential_set_rejected_only_in_ui walletState0 (some "did:ethr:VoltusWave:0xabc")
    "" none "did:ethr:VoltusWave:0xabc" "0x01" rfl rfl (by decide) (by decide)

/-- C10: getCredentials is total at the public interface: for every raw
storage state and every JSON parse oracle it returns a value (never an
exception), returning the empty list when the credentials entry is absent or
its stored JSON cannot be parsed, and the stored list when it parses. -/
theorem getCredentials_total_and_defaults {α : Type} (store : String → StoreCell)
    (parse : String → Except String (List α)) :
    (∃ l, getCredentials store parse = .ok l)
    ∧ (getSecure store credentialsStorageKey = none → getCredentials store parse = .ok [])
    ∧ (∀ json e, getSecure store credentialsStorageKey = some json → json ≠ "" →
        parse json = .error e → getCredentials store parse = .ok [])
    ∧ (∀ json l, getSecure store credentialsStorageKey = some json → json ≠ "" →
        parse json = .ok l → getCredentials store parse = .ok l) := by
  refine ⟨?_, ?_, ?_, ?_⟩
  · rcases hg : getSecure store credentialsStorageKey with _ | json
    · exact ⟨[], by simp [getCredentials, hg]⟩
    · by_cases hj : json = ""
      · exact ⟨[], by simp [getCredentials, hg, hj]⟩
      · rcases hpj : parse json with e | l
        · exact ⟨[], by simp [getCredentials, hg, hj, hpj]⟩
        · exact ⟨l, by simp [getCredentials, hg, hj, hpj]⟩
  · intro h
    simp [getCredentials, h]
  · intro json e hg hj hpj
    simp [getCredentials, hg, hj, hpj]
  · intro json l hg hj hpj
    simp [getCredentials, hg, hj, hpj]

/-- Witness for C10 at a concrete raw store and parse oracle. -/
theorem getCredentials_total_and_defaults_witness :
    getCredentials storeW parseW = .ok [] :=
  (getCredentials_total_and_defaults storeW parseW).2.2.2 "[]" [] rfl (by decide) rfl

end MobileWallet
